import Mathlib

/-!
Verification of the crawler-scheduler core (admission-controlled, claim-based
processing pipeline) against its design specification.

The embedding follows src/crawler-scheduler/app/{database,rate_limiter,config,
file_processor,tasks}.py.  The MongoDB collection is modelled as a list of
documents with a unique key on filename (enforced by the unique index that
_ensure_indexes creates and that makes insert_one raise DuplicateKeyError on a
second insert with the same filename).  Timestamps are minutes since an epoch;
a calendar day is 1440 minutes, so dateOf t = t / 1440 and the hour of day is
t % 1440 / 60, matching the timezone-aware datetime arithmetic of the source
(the timezone itself is abstracted into the time values).

Store unavailability (the specification level LedgerError) is modelled by a
Boolean per call site: when the flag is false the underlying driver call
raises, and each Lean operation returns exactly what the corresponding Python
except-handler returns in that case (documented at each definition).
-/

namespace CrawlerScheduler

/-- Lifecycle status stored in a tracking document: the source writes the
strings processing / processed / failed. -/
inductive Status
  | processing
  | processed
  | failed
deriving DecidableEq, Repr

/-- One MongoDB document of the crawler_scheduler_tracking collection, with
the fields written by Database.mark_file_as_processing / _processed /
_failed.  Opaque payloads (file_data, api_response) are kept as strings. -/
structure FileDoc where
  filename : String
  status : Status
  file_data : Option String
  started_at : Option Nat
  attempts : Nat
  error_message : Option String
  processed_at : Option Nat
  api_response : Option String
  failed_at : Option Nat
deriving DecidableEq, Repr

/-- The tracking collection.  The unique index on filename means reachable
states never hold two documents with the same filename; operations are
nevertheless defined on arbitrary lists, acting on the first match exactly as
Mongo update_one does. -/
abbrev Ledger := List FileDoc

/-- find_one by filename: the first document whose filename matches. -/
def find_doc (L : Ledger) (fname : String) : Option FileDoc :=
  L.find? (fun d => d.filename == fname)

/-- Database.is_file_processed: true when a document with this filename
exists, whatever its status (find_one filters on filename only). -/
def is_file_processed (L : Ledger) (fname : String) : Bool :=
  (find_doc L fname).isSome

/-- Mongo update_one: apply the update to the first matching document, leave
the collection unchanged when no document matches. -/
def update_first (L : Ledger) (fname : String) (f : FileDoc → FileDoc) : Ledger :=
  match L with
  | [] => []
  | d :: ds =>
      if d.filename == fname then f d :: ds else d :: update_first ds fname f

/-- The document Database.mark_file_as_processing inserts. -/
def claim_doc (fname : String) (data : String) (now : Nat) : FileDoc :=
  { filename := fname
    status := .processing
    file_data := some data
    started_at := some now
    attempts := 1
    error_message := none
    processed_at := none
    api_response := none
    failed_at := none }

/-- Database.mark_file_as_processing: insert-if-absent under the unique
filename index.  DuplicateKeyError (filename already present) is caught and
returns false with no mutation; any other driver exception (store down,
up = false) is also caught and returns false with no mutation. -/
def mark_file_as_processing (up : Bool) (L : Ledger) (fname : String)
    (data : String) (now : Nat) : Bool × Ledger :=
  if !up then (false, L)
  else if is_file_processed L fname then (false, L)
  else (true, L ++ [claim_doc fname data now])

/-- Database.mark_file_as_processed: unconditional update_one by filename
setting status, processed_at and api_response; exceptions (store down) are
caught, leaving the collection unchanged.  There is no status precondition in
the filter. -/
def mark_file_as_processed (up : Bool) (L : Ledger) (fname : String)
    (resp : String) (now : Nat) : Ledger :=
  if !up then L
  else update_first L fname (fun d =>
    { d with status := .processed, processed_at := some now,
             api_response := some resp })

/-- Database.mark_file_as_failed: unconditional update_one by filename
setting status, failed_at and error_message and incrementing attempts;
exceptions (store down) are caught, leaving the collection unchanged.  There
is no status precondition in the filter. -/
def mark_file_as_failed (up : Bool) (L : Ledger) (fname : String)
    (msg : String) (now : Nat) : Ledger :=
  if !up then L
  else update_first L fname (fun d =>
    { d with status := .failed, failed_at := some now,
             error_message := some msg, attempts := d.attempts + 1 })

/-- Counts returned by Database.get_processing_stats (the float success_rate
is determined by these and not modelled). -/
structure Stats where
  total : Nat
  processed : Nat
  processing : Nat
  failed : Nat
deriving DecidableEq, Repr

/-- Database.get_processing_stats: per-status document counts. -/
def get_processing_stats (L : Ledger) : Stats :=
  { total := L.length
    processed := L.countP (fun d => d.status == .processed)
    processing := L.countP (fun d => d.status == .processing)
    failed := L.countP (fun d => d.status == .failed) }

/-- Minutes per calendar day in the time model. -/
def minutesPerDay : Nat := 1440

/-- Calendar day of a timestamp (.date() of the datetime). -/
def dateOf (t : Nat) : Nat := t / minutesPerDay

/-- Hour of day of a timestamp (.hour of the datetime). -/
def hourOf (t : Nat) : Nat := t % minutesPerDay / 60

/-- Start of today: now.replace(hour=0, minute=0, ...). -/
def todayStart (now : Nat) : Nat := dateOf now * minutesPerDay

/-- Database.get_daily_processed_count: documents with status processed and
processed_at on or after the start of today; a driver exception (store down)
is caught and 0 returned. -/
def get_daily_processed_count (up : Bool) (L : Ledger) (now : Nat) : Nat :=
  if !up then 0
  else L.countP (fun d =>
    d.status == .processed &&
      match d.processed_at with
      | some t => todayStart now ≤ t
      | none => false)

/-- The processed_at of the first successfully processed document: find_one
with filter status = processed sorted by processed_at ascending.  Documents
with status processed always carry processed_at (both are set together by
mark_file_as_processed), so taking the minimum over the present timestamps is
the sort. -/
def first_processed_at (L : Ledger) : Option Nat :=
  (L.filterMap (fun d =>
    if d.status == .processed then d.processed_at else none)).min?

/-- Database.get_warmup_day: 1 when no document has been processed, else
(today - date of first success) + 1; a driver exception (store down) is
caught and 1 returned.  The difference is an integer, as in Python. -/
def get_warmup_day (up : Bool) (L : Ledger) (now : Nat) : Int :=
  if !up then 1
  else
    match first_processed_at L with
    | none => 1
    | some t0 => ((dateOf now : Int) - (dateOf t0 : Int)) + 1

/-- RateLimiter.is_in_time_window over the current hour: an end hour of 0 or
24 is first normalized to 24 (end of day); then a non-wrapping window
(start ≤ end) admits start ≤ hour ≤ end, and a wrapping window (start > end)
admits hour ≥ start or hour ≤ end, all bounds inclusive. -/
def is_in_time_window (startHour endHour currentHour : Nat) : Bool :=
  let e := if endHour == 0 || endHour == 24 then 24 else endHour
  if startHour ≤ e then
    decide (startHour ≤ currentHour) && decide (currentHour ≤ e)
  else
    decide (currentHour ≥ startHour) || decide (currentHour ≤ e)

/-- Python list indexing list[i] with a possibly negative index, as used by
warmup_schedule[day - 1] and warmup_schedule[-1].  An index out of range
raises IndexError in Python; that case is modelled as 0 and is never reached
from the states the claims quantify over (the schedule is non-empty and the
day at least 1 there). -/
def py_get (l : List Int) (i : Int) : Int :=
  if 0 ≤ i then l.getD i.toNat 0
  else if (-i).toNat ≤ l.length then l.getD (l.length - (-i).toNat) 0
  else 0

/-- RateLimiter.get_current_daily_limit as a function of the warm-up day:
schedule[day - 1] while the day is within the schedule, schedule[-1] (the
sticky last value) afterwards. -/
def get_current_daily_limit (schedule : List Int) (day : Int) : Int :=
  if day ≤ (schedule.length : Int) then py_get schedule (day - 1)
  else py_get schedule (-1)

/-- RateLimiter.can_process_now, reduced to its Boolean verdict (the reason
string it also returns is display text determined by the same data): allowed
when warm-up is disabled; otherwise denied outside the time window, and
otherwise allowed exactly when the daily processed count is still below the
daily limit of the current warm-up day. -/
def can_process_now (warmupEnabled : Bool) (schedule : List Int)
    (startHour endHour : Nat) (upCount upWarm : Bool) (L : Ledger)
    (now : Nat) : Bool :=
  if !warmupEnabled then true
  else if !is_in_time_window startHour endHour (hourOf now) then false
  else
    let dailyLimit := get_current_daily_limit schedule (get_warmup_day upWarm L now)
    let dailyCount := get_daily_processed_count upCount L now
    decide ((dailyCount : Int) < dailyLimit)

/-- Config.validate (database-independent): the conjunction of its assert
statements — start hour strictly before end hour, min jitter strictly below
max jitter, positive task interval, non-empty warm-up schedule of strictly
positive entries.  A false verdict means an AssertionError at startup
(celery_app.py calls Config.validate() at import time). -/
def config_validate (startHour endHour jitterMin jitterMax taskInterval : Int)
    (schedule : List Int) : Bool :=
  decide (startHour < endHour) && decide (jitterMin < jitterMax) &&
    decide (0 < taskInterval) && !schedule.isEmpty &&
    schedule.all (fun x => decide (0 < x))

/-- Where the candidate file sits after an operation: still in the pending
directory, moved to the processed directory, or moved to the failed
directory. -/
inductive FileLoc
  | pending
  | processedDir
  | failedDir
deriving DecidableEq, Repr

/-- FileProcessor.get_pending_files: the queued filenames whose existence
check in the Ledger comes back false, in listing order.  When the store is
down the per-file check raises and the surrounding except-handler returns the
empty list (upScan = false). -/
def get_pending_files (upScan : Bool) (L : Ledger) (queued : List String) :
    List String :=
  if !upScan then []
  else queued.filter (fun f => !is_file_processed L f)

/-- Result of FileProcessor.process_file: its Boolean return value, the
Ledger afterwards, and where the candidate file ended up. -/
structure PFResult where
  ok : Bool
  ledger : Ledger
  loc : FileLoc
deriving DecidableEq, Repr

/-- FileProcessor.process_file on one candidate.  parse is the outcome of
reading the payload (none = json.JSONDecodeError), api the outcome of the
submission call (none = failure or timeout), race an insert by a concurrent
worker landing between the duplicate double-check and this worker's claim
(payload and claim time of that worker).  The availability flags say whether
the store is reachable at each of the four Ledger call sites; a raising
is_file_processed double-check (upCheck = false) lands in the generic
except-handler, which records a failure and relocates the file to the failed
directory.  The jitter sleep between claim and submission performs no Ledger
or file operation and is not modelled. -/
def process_file (upCheck upClaim upSucc upFail : Bool) (L : Ledger)
    (fname : String) (parse : Option String) (race : Option (String × Nat))
    (api : Option String) (now : Nat) : PFResult :=
  match parse with
  | none =>
      ⟨false, mark_file_as_failed upFail L fname "Invalid JSON" now, .failedDir⟩
  | some data =>
      if !upCheck then
        ⟨false, mark_file_as_failed upFail L fname "Unexpected error" now, .failedDir⟩
      else if is_file_processed L fname then
        ⟨true, L, .processedDir⟩
      else
        let L1 := match race with
          | none => L
          | some rd => (mark_file_as_processing true L fname rd.1 rd.2).2
        match mark_file_as_processing upClaim L1 fname data now with
        | (false, L2) => ⟨false, L2, .pending⟩
        | (true, L2) =>
            match api with
            | some resp =>
                ⟨true, mark_file_as_processed upSucc L2 fname resp now, .processedDir⟩
            | none =>
                ⟨false,
                 mark_file_as_failed upFail L2 fname
                   "API call failed or returned error" now, .failedDir⟩

/-- Store availability at the Ledger call sites of one tick, in call order:
the daily count and warm-up day queries of the admission check, the existence
scan of candidate listing, then the double-check, claim, success record and
failure record inside process_file. -/
structure StoreAvail where
  count : Bool
  warm : Bool
  scan : Bool
  check : Bool
  claim : Bool
  succ : Bool
  failRec : Bool
deriving DecidableEq, Repr

/-- The store reachable at every call site of the tick. -/
def allUp : StoreAvail := ⟨true, true, true, true, true, true, true⟩

/-- The store unreachable at every call site of the tick. -/
def allDown : StoreAvail := ⟨false, false, false, false, false, false, false⟩

/-- Status field of the dict the periodic task returns. -/
inductive TickStatus
  | skipped
  | noFiles
  | success
  | failed
deriving DecidableEq, Repr

/-- Outcome of one tick: the returned status, the Ledger afterwards, and the
location of the selected candidate file (none when no candidate was
selected). -/
structure TickResult where
  status : TickStatus
  ledger : Ledger
  loc : Option FileLoc
deriving DecidableEq, Repr

/-- tasks.process_pending_files, one tick: admission check (skipped when
denied), candidate listing (no_files when empty), then process_file on the
first candidate, whose Boolean result is mapped to the success / failed
status.  The catch-all error status of the task covers only exceptions
outside these modelled operations. -/
def process_pending_files (warmupEnabled : Bool) (schedule : List Int)
    (startHour endHour : Nat) (av : StoreAvail) (L : Ledger)
    (queued : List String) (parse : Option String)
    (race : Option (String × Nat)) (api : Option String) (now : Nat) :
    TickResult :=
  if !can_process_now warmupEnabled schedule startHour endHour
      av.count av.warm L now then
    ⟨.skipped, L, none⟩
  else
    match get_pending_files av.scan L queued with
    | [] => ⟨.noFiles, L, none⟩
    | f :: _ =>
        let r := process_file av.check av.claim av.succ av.failRec
          L f parse race api now
        ⟨if r.ok then .success else .failed, r.ledger, some r.loc⟩

/-- A sequence of claim attempts on one filename against a reachable store:
each call passes its own payload and time, and the Ledger produced by one
call feeds the next (the linearized history of sequential or concurrent
callers, since the unique-index insert is the linearization point).  Returns
the per-call results and the final Ledger. -/
def run_claims (fname : String) : Ledger → List (String × Nat) → List Bool × Ledger
  | L, [] => ([], L)
  | L, c :: cs =>
      match mark_file_as_processing true L fname c.1 c.2 with
      | (b, L1) =>
          let rest := run_claims fname L1 cs
          (b :: rest.1, rest.2)

end CrawlerScheduler

namespace CrawlerScheduler

/-! Helper lemmas about the collection operations. -/

theorem find_doc_append_claim (L : Ledger) (fname data : String) (t : Nat) :
    find_doc (L ++ [claim_doc fname data t]) fname
      = some ((find_doc L fname).getD (claim_doc fname data t)) := by
  induction L with
  | nil => simp [find_doc, claim_doc]
  | cons a l ih =>
      by_cases h : a.filename == fname
      · simp [find_doc, List.find?_cons, h]
      · simpa [find_doc, List.find?_cons, h] using ih

theorem is_file_processed_append_claim (L : Ledger) (fname data : String) (t : Nat) :
    is_file_processed (L ++ [claim_doc fname data t]) fname = true := by
  simp [is_file_processed, find_doc_append_claim]

theorem mark_processing_present (L : Ledger) (fname data : String) (t : Nat)
    (h : is_file_processed L fname = true) :
    mark_file_as_processing true L fname data t = (false, L) := by
  simp [mark_file_as_processing, h]

theorem mark_processing_absent (L : Ledger) (fname data : String) (t : Nat)
    (h : is_file_processed L fname = false) :
    mark_file_as_processing true L fname data t
      = (true, L ++ [claim_doc fname data t]) := by
  simp [mark_file_as_processing, h]

theorem run_claims_present (fname : String) (L : Ledger)
    (cs : List (String × Nat)) (h : is_file_processed L fname = true) :
    run_claims fname L cs = (List.replicate cs.length false, L) := by
  induction cs with
  | nil => simp [run_claims]
  | cons c cs ih =>
      simp [run_claims, mark_processing_present L fname c.1 c.2 h, ih,
        List.replicate_succ]

/-- C1: across any sequence of claim calls with the same id, the claim
operation returns true at most once; a present id always yields false with
zero mutation; an absent id yields true and appends exactly one document with
status processing, attempts 1 and the claim timestamp. -/
theorem try_claim_at_most_once :
    ∀ (L : Ledger) (fname : String) (calls : List (String × Nat)),
      ((run_claims fname L calls).1.count true ≤ 1)
      ∧ (∀ (L1 : Ledger) (data : String) (t : Nat),
          is_file_processed L1 fname = true →
          mark_file_as_processing true L1 fname data t = (false, L1))
      ∧ (∀ (L1 : Ledger) (data : String) (t : Nat),
          is_file_processed L1 fname = false →
          mark_file_as_processing true L1 fname data t
              = (true, L1 ++ [claim_doc fname data t])
          ∧ (claim_doc fname data t).status = .processing
          ∧ (claim_doc fname data t).attempts = 1
          ∧ (claim_doc fname data t).started_at = some t) := by
  intro L fname calls
  refine ⟨?_, fun L1 data t h => mark_processing_present L1 fname data t h,
    fun L1 data t h => ⟨mark_processing_absent L1 fname data t h, rfl, rfl, rfl⟩⟩
  induction calls generalizing L with
  | nil => simp [run_claims]
  | cons c cs ih =>
      by_cases h : is_file_processed L fname = true
      · simp [run_claims, mark_processing_present L fname c.1 c.2 h]
        exact ih L
      · have h0 : is_file_processed L fname = false := by simpa using h
        have hp := is_file_processed_append_claim L fname c.1 c.2
        simp [run_claims, mark_processing_absent L fname c.1 c.2 h0,
          run_claims_present fname _ cs hp, List.count_cons]
        rw [List.count_eq_zero]
        simp [List.mem_replicate]

/-- Witness for C1 at a concrete sequence of two claim calls on one id. -/
theorem try_claim_at_most_once_check :
    ((run_claims "a.txt" [] [("p1", 600), ("p2", 660)]).1.count true ≤ 1)
    ∧ mark_file_as_processing true [claim_doc "a.txt" "p1" 600] "a.txt" "p2" 660
        = (false, [claim_doc "a.txt" "p1" 600])
    ∧ mark_file_as_processing true [] "a.txt" "p1" 600
        = (true, [] ++ [claim_doc "a.txt" "p1" 600]) :=
  ⟨(try_claim_at_most_once [] "a.txt" [("p1", 600), ("p2", 660)]).1,
   (try_claim_at_most_once [] "a.txt" []).2.1
     [claim_doc "a.txt" "p1" 600] "p2" 660 (by decide),
   ((try_claim_at_most_once [] "a.txt" []).2.2 [] "p1" 600 (by decide)).1⟩

theorem is_in_time_window_iff (s e h : Nat) :
    (is_in_time_window s e h = true) ↔
      (if s ≤ (if e = 0 ∨ e = 24 then 24 else e) then
        s ≤ h ∧ h ≤ (if e = 0 ∨ e = 24 then 24 else e)
      else h ≥ s ∨ h ≤ (if e = 0 ∨ e = 24 then 24 else e)) := by
  have hnorm : (if (e == 0 || e == 24) = true then 24 else e)
      = (if e = 0 ∨ e = 24 then 24 else e) := by
    by_cases he : e = 0 ∨ e = 24 <;> simp [he]
  simp only [is_in_time_window, hnorm]
  split_ifs with h1 <;> simp

/-- C4: window membership of the current hour, after normalizing an end hour
of 0 or 24 to 24: a non-wrapping window admits start ≤ hour ≤ end, a wrapping
window admits hour ≥ start or hour ≤ end, an end hour of 0 or 24 includes
hour 23, a window degenerate after normalization matches exactly its one
hour; and the boundary tables for the windows 10-12, 22-2 and 10-10. -/
theorem time_window_membership :
    (∀ s e h : Nat, s ≤ 23 → h ≤ 23 →
      (s ≤ (if e = 0 ∨ e = 24 then 24 else e) →
        (is_in_time_window s e h = true ↔
          s ≤ h ∧ h ≤ (if e = 0 ∨ e = 24 then 24 else e)))
      ∧ ((if e = 0 ∨ e = 24 then 24 else e) < s →
        (is_in_time_window s e h = true ↔
          h ≥ s ∨ h ≤ (if e = 0 ∨ e = 24 then 24 else e)))
      ∧ ((e = 0 ∨ e = 24) → is_in_time_window s e 23 = true)
      ∧ (s = (if e = 0 ∨ e = 24 then 24 else e) →
        (is_in_time_window s e h = true ↔ h = s)))
    ∧ (is_in_time_window 10 12 9 = false ∧ is_in_time_window 10 12 10 = true
      ∧ is_in_time_window 10 12 11 = true ∧ is_in_time_window 10 12 12 = true
      ∧ is_in_time_window 10 12 13 = false)
    ∧ (is_in_time_window 22 2 22 = true ∧ is_in_time_window 22 2 23 = true
      ∧ is_in_time_window 22 2 0 = true ∧ is_in_time_window 22 2 1 = true
      ∧ is_in_time_window 22 2 2 = true ∧ is_in_time_window 22 2 3 = false
      ∧ is_in_time_window 22 2 21 = false)
    ∧ (is_in_time_window 10 10 9 = false ∧ is_in_time_window 10 10 10 = true
      ∧ is_in_time_window 10 10 11 = false) := by
  refine ⟨?_, by decide, by decide, by decide⟩
  intro s e h hs hh
  refine ⟨fun h1 => ?_, fun h1 => ?_, fun he => ?_, fun h1 => ?_⟩
  · rw [is_in_time_window_iff]
    simp [h1]
  · rw [is_in_time_window_iff]
    simp [Nat.not_le.mpr h1]
  · rw [is_in_time_window_iff]
    simp [he]
    omega
  · rw [is_in_time_window_iff]
    rw [← h1]
    simp
    omega

/-- Witness for C4 at a concrete window and hour. -/
theorem time_window_membership_check :
    is_in_time_window 9 17 12 = true :=
  ((time_window_membership.1 9 17 12 (by decide) (by decide)).1
    (by decide)).mpr (by decide)

/-- C5: with no successfully processed document the warm-up day is 1 and the
daily limit is the first schedule entry; with the first success on calendar
day D the warm-up day at day D + 3 is 4, and in general it is
(today - day of first success) + 1; once the warm-up day exceeds the schedule
length the daily limit is the last schedule entry. -/
theorem warmup_day_quota :
    (∀ (L : Ledger) (now : Nat) (schedule : List Int),
      (∀ d ∈ L, d.status ≠ Status.processed) → schedule ≠ [] →
      get_warmup_day true L now = 1
      ∧ get_current_daily_limit schedule (get_warmup_day true L now)
          = schedule.getD 0 0)
    ∧ (∀ (L : Ledger) (t0 D now : Nat),
      first_processed_at L = some t0 → dateOf t0 = D → dateOf now = D + 3 →
      get_warmup_day true L now = 4)
    ∧ (∀ (L : Ledger) (t0 now : Nat),
      first_processed_at L = some t0 →
      get_warmup_day true L now = ((dateOf now : Int) - (dateOf t0 : Int)) + 1)
    ∧ (∀ (schedule : List Int) (day : Int),
      schedule ≠ [] → (schedule.length : Int) < day →
      get_current_daily_limit schedule day
        = schedule.getD (schedule.length - 1) 0) := by
  refine ⟨?_, ?_, ?_, ?_⟩
  · intro L now schedule hL hne
    have hnone : first_processed_at L = none := by
      simp only [first_processed_at, List.min?_eq_none_iff, List.filterMap_eq_nil_iff]
      intro a ha
      simp [hL a ha]
    have hday : get_warmup_day true L now = 1 := by
      simp [get_warmup_day, hnone]
    refine ⟨hday, ?_⟩
    rw [hday]
    have hlen : 1 ≤ schedule.length := List.length_pos.mpr hne
    have h1 : (1 : Int) ≤ (schedule.length : Int) := by exact_mod_cast hlen
    simp [get_current_daily_limit, py_get, h1]
  · intro L t0 D now h0 hD hnow
    simp [get_warmup_day, h0, hD, hnow]
  · intro L t0 now h0
    simp [get_warmup_day, h0]
  · intro schedule day hne hlt
    have hlen : 1 ≤ schedule.length := List.length_pos.mpr hne
    have hno : ¬ day ≤ (schedule.length : Int) := not_le.mpr hlt
    simp [get_current_daily_limit, py_get, hno, hlen]

/-- Witness for C5 at a one-document Ledger whose first success fell on
calendar day 0, evaluated on day 3, with the five-entry default schedule. -/
theorem warmup_day_quota_check :
    get_warmup_day true [] 600 = 1
    ∧ get_current_daily_limit [50, 100, 200, 400, 800] (get_warmup_day true [] 600)
        = (50 : Int)
    ∧ get_warmup_day true
        [{ filename := "a.txt", status := Status.processed, file_data := some "p", started_at := some 5, attempts := 1, error_message := none, processed_at := some 7, api_response := some "r", failed_at := none }] (3 * 1440 + 600) = 4
    ∧ get_current_daily_limit [50, 100, 200, 400, 800] 9 = (800 : Int) :=
  ⟨((warmup_day_quota.1 [] 600 [50, 100, 200, 400, 800]
      (by decide) (by decide)).1),
   ((warmup_day_quota.1 [] 600 [50, 100, 200, 400, 800]
      (by decide) (by decide)).2),
   (warmup_day_quota.2.1
      [{ filename := "a.txt", status := Status.processed, file_data := some "p", started_at := some 5, attempts := 1, error_message := none, processed_at := some 7, api_response := some "r", failed_at := none }] 7 0 (3 * 1440 + 600)
      (by decide) (by decide) (by decide)),
   (warmup_day_quota.2.2.2 [50, 100, 200, 400, 800] 9
      (by decide) (by decide))⟩

theorem update_first_no_match (L : Ledger) (fname : String) (f : FileDoc → FileDoc)
    (h : find_doc L fname = none) : update_first L fname f = L := by
  induction L with
  | nil => rfl
  | cons a l ih =>
      by_cases ha : a.filename == fname
      · simp [find_doc, List.find?_cons, ha] at h
      · simp only [find_doc, List.find?_cons, ha] at h
        simp [update_first, ha, ih h]

theorem find_doc_update_first (L : Ledger) (fname : String) (f : FileDoc → FileDoc)
    (hf : ∀ d, (f d).filename = d.filename) :
    find_doc (update_first L fname f) fname = (find_doc L fname).map f := by
  induction L with
  | nil => rfl
  | cons a l ih =>
      by_cases ha : a.filename == fname
      · have hfa : (f a).filename == fname := by rw [hf a]; exact ha
        simp [update_first, find_doc, List.find?_cons, ha, hfa]
      · simpa [update_first, find_doc, List.find?_cons, ha] using ih

theorem countP_update_first_incr (L : Ledger) (fname : String)
    (f : FileDoc → FileDoc) (p : FileDoc → Bool) (d : FileDoc)
    (h : find_doc L fname = some d) (hd : p d = false) (hfd : p (f d) = true) :
    (update_first L fname f).countP p = L.countP p + 1 := by
  induction L with
  | nil => simp [find_doc] at h
  | cons a l ih =>
      by_cases ha : a.filename == fname
      · have hda : a = d := by simpa [find_doc, List.find?_cons, ha] using h
        subst hda
        simp [update_first, ha, List.countP_cons, hd, hfd]
      · simp only [find_doc, List.find?_cons, ha] at h
        simp [update_first, ha, List.countP_cons, ih h]
        omega

theorem countP_update_first_eq (L : Ledger) (fname : String)
    (f : FileDoc → FileDoc) (p : FileDoc → Bool) (d : FileDoc)
    (h : find_doc L fname = some d) (hpd : p (f d) = p d) :
    (update_first L fname f).countP p = L.countP p := by
  induction L with
  | nil => simp [find_doc] at h
  | cons a l ih =>
      by_cases ha : a.filename == fname
      · have hda : a = d := by simpa [find_doc, List.find?_cons, ha] using h
        subst hda
        simp [update_first, ha, List.countP_cons, hpd]
      · simp only [find_doc, List.find?_cons, ha] at h
        simp [update_first, ha, List.countP_cons, ih h]

/-- C8: on a Ledger whose document for the id is in the claimed state,
recording a success increases the processed count of the aggregate statistics
by exactly one and leaves the attempt counter of the document unchanged,
while recording a failure increments the attempt counter by exactly one and
leaves the processed count unchanged. -/
theorem record_ops_frame_effects :
    ∀ (L : Ledger) (fname resp msg : String) (d : FileDoc) (t : Nat),
      find_doc L fname = some d → d.status = Status.processing →
      (get_processing_stats (mark_file_as_processed true L fname resp t)).processed
          = (get_processing_stats L).processed + 1
      ∧ (find_doc (mark_file_as_processed true L fname resp t) fname).map
          FileDoc.attempts = some d.attempts
      ∧ (get_processing_stats (mark_file_as_failed true L fname msg t)).processed
          = (get_processing_stats L).processed
      ∧ (find_doc (mark_file_as_failed true L fname msg t) fname).map
          FileDoc.attempts = some (d.attempts + 1) := by
  intro L fname resp msg d t h hst
  refine ⟨?_, ?_, ?_, ?_⟩
  · simp only [mark_file_as_processed, Bool.not_true, if_false, get_processing_stats]
    exact countP_update_first_incr L fname _ _ d h (by simp [hst]) (by simp)
  · have hred : mark_file_as_processed true L fname resp t
        = update_first L fname (fun d0 =>
            { d0 with status := Status.processed, processed_at := some t,
                      api_response := some resp }) := rfl
    rw [hred, find_doc_update_first L fname (fun d0 =>
      { d0 with status := Status.processed, processed_at := some t,
                api_response := some resp }) (fun x => rfl), h]
    rfl
  · simp only [mark_file_as_failed, Bool.not_true, if_false, get_processing_stats]
    exact countP_update_first_eq L fname _ _ d h (by simp [hst])
  · have hred : mark_file_as_failed true L fname msg t
        = update_first L fname (fun d0 =>
            { d0 with status := Status.failed, failed_at := some t,
                      error_message := some msg, attempts := d0.attempts + 1 }) := rfl
    rw [hred, find_doc_update_first L fname (fun d0 =>
      { d0 with status := Status.failed, failed_at := some t,
                error_message := some msg, attempts := d0.attempts + 1 })
      (fun x => rfl), h]
    rfl

/-- Witness for C8 at a one-document Ledger holding a freshly claimed id. -/
theorem record_ops_frame_effects_check :
    (get_processing_stats
        (mark_file_as_processed true [claim_doc "a.txt" "p" 5] "a.txt" "ok" 9)).processed
      = (get_processing_stats [claim_doc "a.txt" "p" 5]).processed + 1
    ∧ (find_doc (mark_file_as_processed true [claim_doc "a.txt" "p" 5] "a.txt" "ok" 9)
        "a.txt").map FileDoc.attempts = some (claim_doc "a.txt" "p" 5).attempts
    ∧ (get_processing_stats
        (mark_file_as_failed true [claim_doc "a.txt" "p" 5] "a.txt" "boom" 9)).processed
      = (get_processing_stats [claim_doc "a.txt" "p" 5]).processed
    ∧ (find_doc (mark_file_as_failed true [claim_doc "a.txt" "p" 5] "a.txt" "boom" 9)
        "a.txt").map FileDoc.attempts = some ((claim_doc "a.txt" "p" 5).attempts + 1) :=
  record_ops_frame_effects [claim_doc "a.txt" "p" 5] "a.txt" "ok" "boom"
    (claim_doc "a.txt" "p" 5) 9 (by decide) (by decide)

/-- C6 counterexample: a document already in the terminal Succeeded state is
not terminal for recordFailure — the unconditional update flips its status to
failed and increments its attempt counter, refuting the monotone-transition
claim at this concrete Ledger. -/
theorem succeeded_then_failed_counterexample :
    (find_doc [{ filename := "a.txt", status := Status.processed, file_data := some "p", started_at := some 5, attempts := 1, error_message := none, processed_at := some 7, api_response := some "r", failed_at := none }] "a.txt").map FileDoc.status
      = some Status.processed
    ∧ (find_doc (mark_file_as_failed true [{ filename := "a.txt", status := Status.processed, file_data := some "p", started_at := some 5, attempts := 1, error_message := none, processed_at := some 7, api_response := some "r", failed_at := none }] "a.txt" "boom" 9) "a.txt").map FileDoc.status
      = some Status.failed
    ∧ (find_doc (mark_file_as_failed true [{ filename := "a.txt", status := Status.processed, file_data := some "p", started_at := some 5, attempts := 1, error_message := none, processed_at := some 7, api_response := some "r", failed_at := none }] "a.txt" "boom" 9) "a.txt").map FileDoc.attempts
      = some 2
    ∧ Status.failed ≠ Status.processed := by decide

/-- C6 amended: the only entry transition is the insert-if-absent claim,
which creates status Claimed; recordSuccess and recordFailure act on the
first document with the id without any status guard — recordSuccess sets
status Succeeded leaving the attempt counter unchanged, recordFailure sets
status Failed and increments the attempt counter whatever the previous
status, so Succeeded is not terminal at the Ledger level; both updates are
no-ops when the id has no document. -/
theorem ledger_transition_behavior :
    ∀ (L : Ledger) (fname resp msg : String) (d : FileDoc) (t : Nat),
      (find_doc L fname = none →
        mark_file_as_processed true L fname resp t = L
        ∧ mark_file_as_failed true L fname msg t = L)
      ∧ (find_doc L fname = some d →
        find_doc (mark_file_as_processed true L fname resp t) fname
          = some { d with status := Status.processed, processed_at := some t, api_response := some resp }
        ∧ find_doc (mark_file_as_failed true L fname msg t) fname
          = some { d with status := Status.failed, failed_at := some t, error_message := some msg, attempts := d.attempts + 1 })
      ∧ (∀ data, (mark_file_as_processing true L fname data t).2 = L
          ∨ (mark_file_as_processing true L fname data t
              = (true, L ++ [claim_doc fname data t])
            ∧ (claim_doc fname data t).status = Status.processing)) := by
  intro L fname resp msg d t
  refine ⟨fun h => ⟨?_, ?_⟩, fun h => ⟨?_, ?_⟩, fun data => ?_⟩
  · simpa [mark_file_as_processed] using update_first_no_match L fname _ h
  · simpa [mark_file_as_failed] using update_first_no_match L fname _ h
  · have hred : mark_file_as_processed true L fname resp t
        = update_first L fname (fun d0 =>
            { d0 with status := Status.processed, processed_at := some t,
                      api_response := some resp }) := rfl
    rw [hred, find_doc_update_first L fname (fun d0 =>
      { d0 with status := Status.processed, processed_at := some t,
                api_response := some resp }) (fun x => rfl), h]
    rfl
  · have hred : mark_file_as_failed true L fname msg t
        = update_first L fname (fun d0 =>
            { d0 with status := Status.failed, failed_at := some t,
                      error_message := some msg, attempts := d0.attempts + 1 }) := rfl
    rw [hred, find_doc_update_first L fname (fun d0 =>
      { d0 with status := Status.failed, failed_at := some t,
                error_message := some msg, attempts := d0.attempts + 1 })
      (fun x => rfl), h]
    rfl
  · by_cases hp : is_file_processed L fname = true
    · exact Or.inl (by simp [mark_processing_present L fname data t hp])
    · exact Or.inr ⟨mark_processing_absent L fname data t (by simpa using hp), rfl⟩

/-- Witness for C6 amended at a missing id and at a present claimed id. -/
theorem ledger_transition_behavior_check :
    mark_file_as_failed true [] "a.txt" "boom" 9 = []
    ∧ find_doc (mark_file_as_processed true [claim_doc "a.txt" "p" 5] "a.txt" "ok" 9) "a.txt"
        = some { claim_doc "a.txt" "p" 5 with status := Status.processed, processed_at := some 9, api_response := some "ok" } :=
  ⟨((ledger_transition_behavior [] "a.txt" "ok" "boom" (claim_doc "a.txt" "p" 5) 9).1
      (by decide)).2,
   (((ledger_transition_behavior [claim_doc "a.txt" "p" 5] "a.txt" "ok" "boom"
      (claim_doc "a.txt" "p" 5) 9).2.1 (by decide))).1⟩

/-- C7 counterexample: a queued id whose Ledger document has status Failed —
not Succeeded — is nevertheless excluded from the candidate list, because the
existence check filters on the mere presence of a document. -/
theorem failed_doc_excluded_counterexample :
    get_pending_files true [{ filename := "a.txt", status := Status.failed, file_data := some "p", started_at := some 5, attempts := 2, error_message := some "boom", processed_at := none, api_response := none, failed_at := some 9 }] ["a.txt"] = []
    ∧ (find_doc [{ filename := "a.txt", status := Status.failed, file_data := some "p", started_at := some 5, attempts := 2, error_message := some "boom", processed_at := none, api_response := none, failed_at := some 9 }] "a.txt").map FileDoc.status
        = some Status.failed
    ∧ Status.failed ≠ Status.processed := by decide

/-- C7 amended: the candidate list contains exactly the queued ids that have
no Ledger document at all — a document of any status, Claimed and Failed
included, removes the id from the candidates. -/
theorem pending_files_exactly_unrecorded :
    ∀ (L : Ledger) (queued : List String) (f : String),
      f ∈ get_pending_files true L queued ↔ f ∈ queued ∧ find_doc L f = none := by
  intro L queued f
  cases hfd : find_doc L f <;>
    simp [get_pending_files, List.mem_filter, is_file_processed, hfd]

/-- C2 counterexample: the store becomes unreachable after candidate listing,
so the LedgerError arises at the duplicate double-check inside candidate
processing; the generic handler then relocates the candidate to the failed
directory instead of leaving it in the pending area (the Ledger itself stays
unmutated), refuting the claim for this Ledger operation of the tick. -/
theorem ledger_error_midtick_relocation :
    process_pending_files true [50] 10 12
        { count := true, warm := true, scan := true, check := false,
          claim := false, succ := false, failRec := false }
        [] ["a.txt"] (some "p") none (some "ok") 660
      = { status := TickStatus.failed, ledger := [], loc := some FileLoc.failedDir }
    ∧ FileLoc.failedDir ≠ FileLoc.pending := by decide

/-- C2 amended: when the store is unreachable for the whole tick, the tick
ends at admission or candidate listing — skipped or no_files — with the
Ledger unmutated and no candidate selected or relocated, so the next tick
retries; but when the store first fails at the duplicate double-check inside
candidate processing, the candidate is relocated to the failed directory
(still with no Ledger mutation). -/
theorem ledger_down_tick_behavior :
    (∀ (warmupEnabled : Bool) (schedule : List Int) (sH eH : Nat) (L : Ledger)
        (queued : List String) (parse : Option String)
        (race : Option (String × Nat)) (api : Option String) (now : Nat),
      (process_pending_files warmupEnabled schedule sH eH allDown L queued
          parse race api now).ledger = L
      ∧ (process_pending_files warmupEnabled schedule sH eH allDown L queued
          parse race api now).loc = none
      ∧ ((process_pending_files warmupEnabled schedule sH eH allDown L queued
            parse race api now).status = TickStatus.skipped
        ∨ (process_pending_files warmupEnabled schedule sH eH allDown L queued
            parse race api now).status = TickStatus.noFiles))
    ∧ (∀ (upClaim upSucc : Bool) (L : Ledger) (fname data : String)
        (race : Option (String × Nat)) (api : Option String) (now : Nat),
      process_file false upClaim upSucc false L fname (some data) race api now
        = ⟨false, L, FileLoc.failedDir⟩) := by
  constructor
  · intro warmupEnabled schedule sH eH L queued parse race api now
    by_cases hc : can_process_now warmupEnabled schedule sH eH false false L now = true
    · simp [process_pending_files, allDown, hc, get_pending_files]
    · have hc0 : can_process_now warmupEnabled schedule sH eH false false L now = false := by
        simpa using hc
      simp [process_pending_files, allDown, hc0]
  · intro upClaim upSucc L fname data race api now
    simp [process_file, mark_file_as_failed]

/-- C3 counterexample: the claim attempt on the selected candidate comes back
false (a concurrent worker inserted the claim between the double-check and
this worker's insert), and the tick reports status failed, not skipped. -/
theorem duplicate_claim_status_counterexample :
    (process_pending_files true [50] 10 12 allUp [] ["a.txt"] (some "p")
        (some ("q", 650)) (some "ok") 660).status = TickStatus.failed
    ∧ TickStatus.failed ≠ TickStatus.skipped := by decide

/-- C3 amended: in every tick whose selected candidate's claim attempt
returns false, the tick returns status failed (process_file returns False and
the task maps False to failed), and the tick itself writes nothing to the
Ledger — the only new document is the concurrent worker's claim. -/
theorem duplicate_claim_tick_failed :
    ∀ (warmupEnabled : Bool) (schedule : List Int) (sH eH : Nat) (L : Ledger)
      (queued rest : List String) (f data rdata : String) (rt now : Nat)
      (api : Option String),
      get_pending_files true L queued = f :: rest →
      can_process_now warmupEnabled schedule sH eH true true L now = true →
      (process_pending_files warmupEnabled schedule sH eH allUp L queued
          (some data) (some (rdata, rt)) api now).status = TickStatus.failed
      ∧ (process_pending_files warmupEnabled schedule sH eH allUp L queued
          (some data) (some (rdata, rt)) api now).ledger
          = L ++ [claim_doc f rdata rt] := by
  intro warmupEnabled schedule sH eH L queued rest f data rdata rt now api hpend hcan
  have hmem : f ∈ queued.filter (fun x => !is_file_processed L x) := by
    have h0 : queued.filter (fun x => !is_file_processed L x) = f :: rest := by
      simpa [get_pending_files] using hpend
    rw [h0]
    exact List.mem_cons_self f rest
  have hnf : is_file_processed L f = false := by
    have := (List.mem_filter.mp hmem).2
    simpa using this
  have hclaim1 : mark_file_as_processing true L f rdata rt
      = (true, L ++ [claim_doc f rdata rt]) :=
    mark_processing_absent L f rdata rt hnf
  have hclaim2 : mark_file_as_processing true (L ++ [claim_doc f rdata rt]) f data now
      = (false, L ++ [claim_doc f rdata rt]) :=
    mark_processing_present _ f data now (is_file_processed_append_claim L f rdata rt)
  have hpf : process_file true true true true L f (some data) (some (rdata, rt)) api now
      = ⟨false, L ++ [claim_doc f rdata rt], FileLoc.pending⟩ := by
    simp [process_file, hnf, hclaim1, hclaim2]
  simp [process_pending_files, allUp, hcan, hpend, hpf]

/-- Witness for C3 amended: one queued candidate, empty Ledger, a concurrent
claim landing first. -/
theorem duplicate_claim_tick_failed_check :
    (process_pending_files true [50] 10 12 allUp [] ["a.txt"] (some "p")
        (some ("q", 650)) (some "ok") 660).status = TickStatus.failed
    ∧ (process_pending_files true [50] 10 12 allUp [] ["a.txt"] (some "p")
        (some ("q", 650)) (some "ok") 660).ledger
        = [] ++ [claim_doc "a.txt" "q" 650] :=
  duplicate_claim_tick_failed true [50] 10 12 [] ["a.txt"] [] "a.txt" "p" "q"
    650 660 (some "ok") (by decide) (by decide)

/-- C9: startup validation rejects every one of the specified window and
jitter shapes — a midnight-wrapping window (22,2), a degenerate window
(10,10), an end hour of 0, and equal jitter bounds all evaluate to false,
that is, fail an assert in Config.validate, which celery_app runs at import —
while the runtime window check itself supports those very windows; a plain
non-wrapping configuration passes. -/
theorem config_validate_rejects_spec_shapes :
    config_validate 22 2 30 60 60 [50, 100, 200, 400, 800] = false
    ∧ config_validate 10 10 30 60 60 [50, 100, 200, 400, 800] = false
    ∧ config_validate 10 0 30 60 60 [50, 100, 200, 400, 800] = false
    ∧ config_validate 10 12 30 30 60 [50, 100, 200, 400, 800] = false
    ∧ is_in_time_window 22 2 23 = true
    ∧ is_in_time_window 10 10 10 = true
    ∧ is_in_time_window 10 0 23 = true
    ∧ config_validate 10 12 30 60 60 [50, 100, 200, 400, 800] = true := by decide

/-- C10: recording a failure for an id with no Ledger document leaves the
Ledger and its aggregate statistics completely unchanged and the id still
claimable, and the parse-error path of candidate processing does exactly
that while relocating the candidate file to the failed directory. -/
theorem record_failure_missing_id_noop :
    ∀ (L : Ledger) (fname msg data resp : String) (t t2 t3 : Nat),
      find_doc L fname = none →
      mark_file_as_failed true L fname msg t = L
      ∧ get_processing_stats (mark_file_as_failed true L fname msg t)
          = get_processing_stats L
      ∧ (mark_file_as_processing true (mark_file_as_failed true L fname msg t)
          fname data t2).1 = true
      ∧ process_file true true true true L fname none none (some resp) t3
          = ⟨false, L, FileLoc.failedDir⟩ := by
  intro L fname msg data resp t t2 t3 h
  have hno : mark_file_as_failed true L fname msg t = L := by
    simpa [mark_file_as_failed] using update_first_no_match L fname _ h
  refine ⟨hno, by rw [hno], ?_, ?_⟩
  · rw [hno]
    simp [mark_file_as_processing, is_file_processed, h]
  · have hno3 : mark_file_as_failed true L fname "Invalid JSON" t3 = L := by
      simpa [mark_file_as_failed] using update_first_no_match L fname _ h
    simp [process_file, hno3]

/-- Witness for C10 at a Ledger holding an unrelated claimed document. -/
theorem record_failure_missing_id_noop_check :
    mark_file_as_failed true [claim_doc "b.txt" "p" 1] "a.txt" "boom" 9
      = [claim_doc "b.txt" "p" 1]
    ∧ get_processing_stats
        (mark_file_as_failed true [claim_doc "b.txt" "p" 1] "a.txt" "boom" 9)
      = get_processing_stats [claim_doc "b.txt" "p" 1]
    ∧ (mark_file_as_processing true
        (mark_file_as_failed true [claim_doc "b.txt" "p" 1] "a.txt" "boom" 9)
        "a.txt" "p2" 11).1 = true
    ∧ process_file true true true true [claim_doc "b.txt" "p" 1] "a.txt"
        none none (some "ok") 12
      = ⟨false, [claim_doc "b.txt" "p" 1], FileLoc.failedDir⟩ :=
  record_failure_missing_id_noop [claim_doc "b.txt" "p" 1] "a.txt" "boom"
    "p2" "ok" 9 11 12 (by decide)

end CrawlerScheduler
